import Mathlib

/-!
Shallow embedding of the appointment-scheduling service
(`src/project/book_appointment_service.py`,
`src/project/fetch_availability_service.py`,
`src/project/sync_external_schedule_service.py`).

Timestamps are modelled as integers (datetimes are totally ordered).
A raw ISO-8601 input string is modelled as a `TimeStr`: its raw text plus
the result of `datetime.fromisoformat` (`none` when the library raises
`ValueError`).  The Prisma store is a list of schedule rows and a list of
appointment rows; each awaited Prisma call can raise, which is modelled by
an injectable fault (`FaultSpec`).  The `try/except` of the Python source
becomes explicit propagation of the fault message to the `except` branch.
-/

namespace AvailabilityChecker

/-- A row of the `Schedule` table: slot id, owning professional, the
`[start, end]` window and a status string (`"Available"`, `"Booked"`, ...). -/
structure Schedule where
  id : String
  professionalId : String
  start : Int
  «end» : Int
  status : String
deriving DecidableEq

/-- A row of the `Appointment` table as created by `book_appointment`. -/
structure Appointment where
  id : String
  scheduleId : String
  clientId : String
  startTime : Int
  endTime : Int
deriving DecidableEq

/-- The relational store: the `Schedule` and `Appointment` tables. -/
structure Store where
  schedules : List Schedule
  appointments : List Appointment
deriving DecidableEq

/-- An ISO-8601 input string together with the outcome of
`datetime.fromisoformat` on it (`none` = the call raises `ValueError`). -/
structure TimeStr where
  raw : String
  parsed : Option Int
deriving DecidableEq

/-- Fault injection for the three awaited Prisma calls inside
`book_appointment`; `some msg` means the call raises an exception whose
`str(e)` is `msg`. -/
structure FaultSpec where
  findFault : Option String
  createFault : Option String
  updateFault : Option String
deriving DecidableEq

/-- No injected store faults: every Prisma call succeeds. -/
def noFaults : FaultSpec := ⟨none, none, none⟩

/-- The `BookingResponse` pydantic model of `book_appointment_service.py`. -/
structure BookingResponse where
  bookingId : String
  professionalId : String
  clientId : String
  startTime : String
  endTime : String
  status : String
  details : Option String
  errorMessage : Option String
deriving DecidableEq

/-- `str(e)` of the `ValueError` raised by `datetime.fromisoformat`. -/
def isoErrMsg (raw : String) : String :=
  "Invalid isoformat string: " ++ raw

/-- The `where` filter of the `find_first` query in `book_appointment`
(lines 50-59): same professional, status `"Available"`, and
`slot.start <= start_time` and `slot.end >= end_time`. -/
def schedMatches (professionalId : String) (s e : Int) (sch : Schedule) : Bool :=
  sch.professionalId == professionalId && sch.status == "Available"
    && decide (sch.start ≤ s) && decide (e ≤ sch.«end»)

/-- `Schedule.prisma().find_first(...)` of `book_appointment`: the first
row of the table satisfying the filter, if any. -/
def find_first (store : Store) (professionalId : String) (s e : Int) :
    Option Schedule :=
  store.schedules.find? (schedMatches professionalId s e)

/-- The id Prisma generates for a freshly created `Appointment` row. -/
def newAppointmentId (store : Store) : String :=
  "appt-" ++ toString store.appointments.length

/-- `Schedule.prisma().update(where={"id": schedId}, data={"status": st})`:
rewrite the status of the row(s) whose id matches. -/
def markStatus (store : Store) (schedId st : String) : Store :=
  { store with
    schedules := store.schedules.map fun sch =>
      if sch.id == schedId then { sch with status := st } else sch }

/-- The `except` branch of `book_appointment` (lines 91-100): status
`"Failure"`, empty booking id, the exception text as `errorMessage`, and
no `details` field (the source omits it in this branch). -/
def exceptionResponse (professionalId clientId : String) (st et : TimeStr)
    (msg : String) : BookingResponse :=
  { bookingId := ""
    professionalId := professionalId
    clientId := clientId
    startTime := st.raw
    endTime := et.raw
    status := "Failure"
    details := none
    errorMessage := some msg }

/-- `book_appointment` of `book_appointment_service.py`, returning the
response together with the post-state of the store.  The source parses the
two timestamps, looks for a covering `"Available"` slot, returns a failure
response when none exists, otherwise creates the `Appointment` row first
and only then updates the slot's status to `"Booked"`; any exception is
converted to a failure response by the surrounding `try/except`. -/
def book_appointment (store : Store) (faults : FaultSpec)
    (professionalId clientId : String) (startTime endTime : TimeStr)
    (details : Option String) : BookingResponse × Store :=
  match startTime.parsed with
  | none =>
      (exceptionResponse professionalId clientId startTime endTime
        (isoErrMsg startTime.raw), store)
  | some s =>
    match endTime.parsed with
    | none =>
        (exceptionResponse professionalId clientId startTime endTime
          (isoErrMsg endTime.raw), store)
    | some e =>
      match faults.findFault with
      | some msg =>
          (exceptionResponse professionalId clientId startTime endTime msg,
            store)
      | none =>
        match find_first store professionalId s e with
        | none =>
            ({ bookingId := ""
               professionalId := professionalId
               clientId := clientId
               startTime := startTime.raw
               endTime := endTime.raw
               status := "Failure"
               details := details
               errorMessage :=
                 some "Professional is not available at the requested time." },
              store)
        | some slot =>
          match faults.createFault with
          | some msg =>
              (exceptionResponse professionalId clientId startTime endTime msg,
                store)
          | none =>
            let appt : Appointment :=
              { id := newAppointmentId store
                scheduleId := slot.id
                clientId := clientId
                startTime := s
                endTime := e }
            let store1 : Store :=
              { store with appointments := store.appointments ++ [appt] }
            match faults.updateFault with
            | some msg =>
                (exceptionResponse professionalId clientId startTime endTime
                  msg, store1)
            | none =>
                let store2 := markStatus store1 slot.id "Booked"
                ({ bookingId := appt.id
                   professionalId := professionalId
                   clientId := clientId
                   startTime := startTime.raw
                   endTime := endTime.raw
                   status := "Success"
                   details := details
                   errorMessage := none },
                  store2)

/-- The `TimeSlot` pydantic model of `fetch_availability_service.py`. -/
structure TimeSlot where
  start_time : Int
  end_time : Int
  status : String
deriving DecidableEq

/-- The list comprehension of `fetch_availability` building a `TimeSlot`
from a `Schedule` row. -/
def toTimeSlot (sch : Schedule) : TimeSlot :=
  { start_time := sch.start, end_time := sch.«end», status := sch.status }

/-- `fetch_availability` of `fetch_availability_service.py`: a `find_many`
filtered on the professional and on status `"AVAILABLE"` (no ordering
clause), mapped to `TimeSlot`s.  It is a pure read: the store is not
modified (the function does not even return a store). -/
def fetch_availability (store : Store) (professionalId : String) :
    List TimeSlot :=
  ((store.schedules.filter fun sch =>
      sch.professionalId == professionalId && sch.status == "AVAILABLE").map
    toTimeSlot)

/-- The `SyncScheduleResponse` pydantic model of
`sync_external_schedule_service.py`. -/
structure SyncScheduleResponse where
  success : Bool
  synced_appointments_count : Int
  errors : List String
deriving DecidableEq

/-- `sync_external_schedule` of `sync_external_schedule_service.py`.  The
source validates the api key (`not api_key` is true exactly on the empty
string) and the system name, then the body is a stub: it consults no
store and returns a hardcoded count of 5 with no errors. -/
def sync_external_schedule (professional_id external_system_name api_key :
    String) (sync_start_date sync_end_date : Int) : SyncScheduleResponse :=
  if api_key == ""
      || !(external_system_name == "SystemA"
            || external_system_name == "SystemB") then
    { success := false
      synced_appointments_count := 0
      errors := ["Invalid API Key or External System Name"] }
  else
    { success := true, synced_appointments_count := 5, errors := [] }

/-- Two half-open windows `[a, b)` and `[c, d)` overlap. -/
def overlaps (a b c d : Int) : Prop := c < b ∧ a < d

instance (a b c d : Int) : Decidable (overlaps a b c d) := by
  unfold overlaps; infer_instance

/-! ### Interleaved execution model for concurrent bookings

`book_appointment` is an `async` coroutine: control can pass to another
request at each `await`ed Prisma call (the `find_first`, the appointment
`create`, the schedule `update`).  `BookPC` is the program counter of one
booking task, suspended just before its next awaited call; `bookStep`
executes exactly one awaited call against the shared store; `runSched`
interleaves two tasks under an explicit schedule.  Parsing the timestamps
is pure and happens before the first `await`, so it is folded into the
first step. -/

/-- Program counter of a suspended `book_appointment` coroutine. -/
inductive BookPC where
  | toFind
  | toCreate (slot : Schedule) (s e : Int)
  | toUpdate (slot : Schedule) (apptId : String)
  | finished (resp : BookingResponse)
deriving DecidableEq

/-- The arguments of one `book_appointment` call. -/
structure BookArgs where
  professionalId : String
  clientId : String
  startTime : TimeStr
  endTime : TimeStr
  details : Option String
deriving DecidableEq

/-- One atomic step of a `book_appointment` coroutine (fault-free store):
exactly one awaited Prisma call of the source runs against the shared
store.  Mirrors the straight-line body of `book_appointment`. -/
def bookStep (store : Store) (a : BookArgs) : BookPC → BookPC × Store
  | .toFind =>
    match a.startTime.parsed with
    | none =>
        (.finished (exceptionResponse a.professionalId a.clientId
          a.startTime a.endTime (isoErrMsg a.startTime.raw)), store)
    | some s =>
      match a.endTime.parsed with
      | none =>
          (.finished (exceptionResponse a.professionalId a.clientId
            a.startTime a.endTime (isoErrMsg a.endTime.raw)), store)
      | some e =>
        match find_first store a.professionalId s e with
        | none =>
            (.finished
              { bookingId := ""
                professionalId := a.professionalId
                clientId := a.clientId
                startTime := a.startTime.raw
                endTime := a.endTime.raw
                status := "Failure"
                details := a.details
                errorMessage :=
                  some "Professional is not available at the requested time." },
              store)
        | some slot => (.toCreate slot s e, store)
  | .toCreate slot s e =>
      let appt : Appointment :=
        { id := newAppointmentId store
          scheduleId := slot.id
          clientId := a.clientId
          startTime := s
          endTime := e }
      (.toUpdate slot appt.id,
        { store with appointments := store.appointments ++ [appt] })
  | .toUpdate slot apptId =>
      (.finished
        { bookingId := apptId
          professionalId := a.professionalId
          clientId := a.clientId
          startTime := a.startTime.raw
          endTime := a.endTime.raw
          status := "Success"
          details := a.details
          errorMessage := none },
        markStatus store slot.id "Booked")
  | .finished r => (.finished r, store)

/-- Interleave two booking tasks under an explicit schedule: `true` lets
task 1 take its next atomic step, `false` task 2. -/
def runSched (a1 a2 : BookArgs) :
    List Bool → BookPC × BookPC × Store → BookPC × BookPC × Store
  | [], st => st
  | b :: rest, (pc1, pc2, store) =>
    if b then
      let (pc1', store') := bookStep store a1 pc1
      runSched a1 a2 rest (pc1', pc2, store')
    else
      let (pc2', store') := bookStep store a2 pc2
      runSched a1 a2 rest (pc1, pc2', store')

/-- Which exception (if any) the `try` block of `book_appointment` raises
on its executed path: a `ValueError` from one of the two `fromisoformat`
calls, or the injected fault of the first Prisma call that is reached. -/
def raisedMsg (store : Store) (faults : FaultSpec) (professionalId : String)
    (st et : TimeStr) : Option String :=
  match st.parsed with
  | none => some (isoErrMsg st.raw)
  | some s =>
    match et.parsed with
    | none => some (isoErrMsg et.raw)
    | some e =>
      match faults.findFault with
      | some m => some m
      | none =>
        match find_first store professionalId s e with
        | none => none
        | some _ =>
          match faults.createFault with
          | some m => some m
          | none => faults.updateFault

/-! ### Concrete fixtures used by counterexamples and witnesses -/

/-- Two Available slots of professional `"p"` that both cover the window
`[20, 35)`: `[0, 100)` and `[10, 90)`. -/
def c1Store : Store :=
  ⟨[⟨"s1", "p", 0, 100, "Available"⟩, ⟨"s2", "p", 10, 90, "Available"⟩], []⟩

/-- First booking against `c1Store`: client A books `[20, 30)`. -/
def c1FirstRun : BookingResponse × Store :=
  book_appointment c1Store noFaults "p" "clientA"
    ⟨"t20", some 20⟩ ⟨"t30", some 30⟩ none

/-- Second booking, after the first: client B books `[25, 35)`, which
overlaps `[20, 30)`. -/
def c1SecondRun : BookingResponse × Store :=
  book_appointment c1FirstRun.2 noFaults "p" "clientB"
    ⟨"t25", some 25⟩ ⟨"t35", some 35⟩ none

/-- A single Available slot `[0, 100)` of professional `"p"`. -/
def oneSlotStore : Store := ⟨[⟨"s1", "p", 0, 100, "Available"⟩], []⟩

/-- Booking `[10, 20)` against `oneSlotStore` where the Prisma `update`
marking the slot Booked raises after the appointment row was created. -/
def c3Run : BookingResponse × Store :=
  book_appointment oneSlotStore ⟨none, none, some "database connection lost"⟩
    "p" "clientA" ⟨"t10", some 10⟩ ⟨"t20", some 20⟩ none

/-- Booking with an inverted window (start 50 ≥ end 40) against
`oneSlotStore`. -/
def c4Run : BookingResponse × Store :=
  book_appointment oneSlotStore noFaults "p" "clientA"
    ⟨"t50", some 50⟩ ⟨"t40", some 40⟩ none

/-- Task 1 of the concurrent scenario: client A books `[10, 20)`. -/
def c2Args1 : BookArgs := ⟨"p", "clientA", ⟨"t10", some 10⟩, ⟨"t20", some 20⟩, none⟩

/-- Task 2 of the concurrent scenario: client B books `[10, 20)`. -/
def c2Args2 : BookArgs := ⟨"p", "clientB", ⟨"t10", some 10⟩, ⟨"t20", some 20⟩, none⟩

/-- The interleaving in which both tasks run their `find_first` before
either runs its `create`/`update`: find₁, find₂, create₁, update₁,
create₂, update₂. -/
def c2Final : BookPC × BookPC × Store :=
  runSched c2Args1 c2Args2 [true, false, true, true, false, false]
    (.toFind, .toFind, oneSlotStore)

/-- Two `"AVAILABLE"` slots of `"p"` stored with descending start times. -/
def c5Store : Store :=
  ⟨[⟨"s2", "p", 10, 20, "AVAILABLE"⟩, ⟨"s1", "p", 5, 8, "AVAILABLE"⟩], []⟩

end AvailabilityChecker

namespace AvailabilityChecker

/-- C1: false on the code. With two distinct Available slots of the same
professional both covering overlapping windows, two completed
`book_appointment` calls both succeed (the first consumes `"s1"`, the
second finds `"s2"` still Available), leaving two Booked appointments of
professional `"p"` with overlapping `[start, end)` windows `[20, 30)` and
`[25, 35)` — the no-overlap invariant is not preserved. -/
theorem book_appointment_allows_overlapping_bookings :
    c1FirstRun.1.status = "Success" ∧ c1SecondRun.1.status = "Success" ∧
    c1SecondRun.2.appointments =
      [⟨"appt-0", "s1", "clientA", 20, 30⟩, ⟨"appt-1", "s2", "clientB", 25, 35⟩] ∧
    c1SecondRun.2.schedules =
      [⟨"s1", "p", 0, 100, "Booked"⟩, ⟨"s2", "p", 10, 90, "Booked"⟩] ∧
    overlaps 20 30 25 35 := by
  decide

/-- C2: false on the code. There is no compare-and-set: in the
interleaving where both coroutines run their `find_first` before either
mutates the store, both observe the single slot `"s1"` as Available and
both bookings succeed against it, so a state in which one slot is
available to two concurrent callers at once is observable. -/
theorem book_appointment_race_double_success :
    c2Final.1 =
      .finished ⟨"appt-0", "p", "clientA", "t10", "t20", "Success", none, none⟩ ∧
    c2Final.2.1 =
      .finished ⟨"appt-1", "p", "clientB", "t10", "t20", "Success", none, none⟩ ∧
    c2Final.2.2.appointments =
      [⟨"appt-0", "s1", "clientA", 10, 20⟩, ⟨"appt-1", "s1", "clientB", 10, 20⟩] := by
  decide

/-- C3: false on the code. The source creates the appointment row before
marking the slot Booked; when the status update raises, the `except`
branch returns a generic `"Failure"` carrying the exception text (no
`PersistenceFailure` reason) and nothing is compensated: the post-state
has an appointment row whose slot is still `"Available"`, so the two
mutations are not observed as a single atomic unit. -/
theorem book_appointment_no_rollback_on_update_failure :
    c3Run.1.status = "Failure" ∧
    c3Run.1.errorMessage = some "database connection lost" ∧
    c3Run.2.appointments = [⟨"appt-0", "s1", "clientA", 10, 20⟩] ∧
    c3Run.2.schedules = [⟨"s1", "p", 0, 100, "Available"⟩] := by
  decide

/-- C4: false on the code. `book_appointment` never validates
`start < end`: with start 50 ≥ end 40 it still queries the store, finds
the covering slot (the filter `slot.start ≤ start ∧ end ≤ slot.end` is
satisfiable with an inverted window), books it with `"Success"`, and
mutates the store — instead of failing with `InvalidTimeRange` without
touching the store. -/
theorem book_appointment_accepts_inverted_range :
    (50 : Int) ≥ 40 ∧
    c4Run.1.status = "Success" ∧
    c4Run.2.appointments = [⟨"appt-0", "s1", "clientA", 50, 40⟩] ∧
    c4Run.2 ≠ oneSlotStore := by
  decide

/-- C6: false on the code. The reconciliation body is a stub: with a
valid key and system it consults no store at all (the Lean embedding does
not even take a `Store` argument, mirroring the source, which performs no
database access) and returns a hardcoded `syncedCount` of 5 with an empty
`errors` list — not the claimed one-conflict result
`{success: true, syncedCount: 1, errors: [one conflict entry]}`. -/
theorem sync_external_schedule_stub_result :
    sync_external_schedule "P" "SystemA" "key" 0 86400 = ⟨true, 5, []⟩ ∧
    (sync_external_schedule "P" "SystemA" "key" 0 86400).errors = [] := by
  decide

/-- C5 counterexample: the listing is not sorted by start time ascending —
`find_many` has no ordering clause, so slots come back in store order
(`[10, 5]` here). -/
theorem fetch_availability_not_sorted :
    (fetch_availability c5Store "p").map TimeSlot.start_time = [10, 5] ∧
    ¬ List.Sorted (· ≤ ·) ((fetch_availability c5Store "p").map TimeSlot.start_time) := by
  decide

/-- C7: when both timestamps parse, the store is reachable, and no slot of
the professional both has status `"Available"` and covers the requested
window, `book_appointment` returns the structured no-availability failure
response (status `"Failure"`, empty booking id, the fixed error message,
echoed inputs) as a normal value — not an exception — and the store is
returned unchanged: no mutation is performed. -/
theorem book_appointment_no_availability (store : Store)
    (professionalId clientId : String) (st et : TimeStr)
    (details : Option String) (s e : Int)
    (hs : st.parsed = some s) (he : et.parsed = some e)
    (hnone : ∀ sch ∈ store.schedules, schedMatches professionalId s e sch = false) :
    book_appointment store noFaults professionalId clientId st et details =
      ({ bookingId := ""
         professionalId := professionalId
         clientId := clientId
         startTime := st.raw
         endTime := et.raw
         status := "Failure"
         details := details
         errorMessage :=
           some "Professional is not available at the requested time." },
        store) := by
  have hfind : find_first store professionalId s e = none := by
    unfold find_first
    exact List.find?_eq_none.mpr fun sch hm => by simp [hnone sch hm]
  simp [book_appointment, noFaults, hs, he, hfind]

/-- Witness for C7 at a concrete input: the only slot `[0, 5)` does not
cover the requested window `[10, 20)`. -/
theorem book_appointment_no_availability_witness :
    book_appointment ⟨[⟨"s1", "p", 0, 5, "Available"⟩], []⟩ noFaults "p" "c"
        ⟨"a", some 10⟩ ⟨"b", some 20⟩ none =
      ({ bookingId := ""
         professionalId := "p"
         clientId := "c"
         startTime := "a"
         endTime := "b"
         status := "Failure"
         details := none
         errorMessage :=
           some "Professional is not available at the requested time." },
        ⟨[⟨"s1", "p", 0, 5, "Available"⟩], []⟩) :=
  book_appointment_no_availability ⟨[⟨"s1", "p", 0, 5, "Available"⟩], []⟩
    "p" "c" ⟨"a", some 10⟩ ⟨"b", some 20⟩ none 10 20 rfl rfl (by decide)

/-- C8: `sync_external_schedule` returns the fail-fast result (success
false, zero synced, one explanatory error string) exactly when the api key
is invalid (Python `not api_key`: the empty string) or the external system
name is not one of the recognized integrations; it never throws: it is a
total function returning a `SyncScheduleResponse` on every input. -/
theorem sync_external_schedule_fail_fast
    (professional_id external_system_name api_key : String)
    (sync_start_date sync_end_date : Int) :
    (sync_external_schedule professional_id external_system_name api_key
        sync_start_date sync_end_date =
        ⟨false, 0, ["Invalid API Key or External System Name"]⟩
      ↔ (api_key = "" ∨
          (external_system_name ≠ "SystemA" ∧ external_system_name ≠ "SystemB"))) ∧
    ((sync_external_schedule professional_id external_system_name api_key
        sync_start_date sync_end_date).success = false
      ↔ (api_key = "" ∨
          (external_system_name ≠ "SystemA" ∧ external_system_name ≠ "SystemB"))) := by
  unfold sync_external_schedule
  split
  next h =>
    simp only [Bool.or_eq_true, beq_iff_eq, Bool.not_eq_true',
      Bool.or_eq_false_iff, beq_eq_false_iff_ne] at h
    simp [h]
  next h =>
    simp only [Bool.or_eq_true, beq_iff_eq, Bool.not_eq_true',
      Bool.or_eq_false_iff, beq_eq_false_iff_ne] at h
    push_neg at h
    constructor
    · simp only [SyncScheduleResponse.mk.injEq]
      constructor
      · rintro ⟨hfalse, -⟩; exact absurd hfalse (by decide)
      · rintro (hk | ⟨hA, hB⟩)
        · exact absurd hk h.1
        · by_cases hA' : external_system_name = "SystemA"
          · exact absurd hA' hA
          · exact absurd (h.2 hA') hB
    · constructor
      · intro hfalse; exact absurd hfalse (by decide)
      · rintro (hk | ⟨hA, hB⟩)
        · exact absurd hk h.1
        · by_cases hA' : external_system_name = "SystemA"
          · exact absurd hA' hA
          · exact absurd (h.2 hA') hB

/-- Membership in the availability listing: exactly the rows of the
professional whose status is the string `"AVAILABLE"`, mapped to
`TimeSlot`s. -/
lemma mem_fetch_availability (store : Store) (professionalId : String)
    (t : TimeSlot) :
    t ∈ fetch_availability store professionalId ↔
      ∃ sch ∈ store.schedules, sch.professionalId = professionalId ∧
        sch.status = "AVAILABLE" ∧ t = toTimeSlot sch := by
  unfold fetch_availability
  simp only [List.mem_map, List.mem_filter, Bool.and_eq_true, beq_iff_eq]
  constructor
  · rintro ⟨sch, ⟨hsch, hp, hst⟩, rfl⟩
    exact ⟨sch, hsch, hp, hst, rfl⟩
  · rintro ⟨sch, hsch, hp, hst, rfl⟩
    exact ⟨sch, ⟨hsch, hp, hst⟩, rfl⟩

/-- C5 as amended: `fetch_availability` returns exactly the slots of the
professional whose status is the string `"AVAILABLE"` (hence never a
`"Booked"` or `"Cancelled"` slot), in store order — the source has no
ordering clause, so the listing is NOT sorted by start time — and it is a
pure read (its type `Store → String → List TimeSlot` returns no store)
that yields the empty list, not an error, when the professional has no
such slot. -/
theorem fetch_availability_spec (store : Store) (professionalId : String) :
    (∀ t, t ∈ fetch_availability store professionalId ↔
      ∃ sch ∈ store.schedules, sch.professionalId = professionalId ∧
        sch.status = "AVAILABLE" ∧ t = toTimeSlot sch) ∧
    (∀ t ∈ fetch_availability store professionalId,
      t.status ≠ "Booked" ∧ t.status ≠ "Cancelled") ∧
    ((∀ sch ∈ store.schedules,
        ¬(sch.professionalId = professionalId ∧ sch.status = "AVAILABLE")) →
      fetch_availability store professionalId = []) := by
  have hmem := mem_fetch_availability store professionalId
  refine ⟨hmem, ?_, ?_⟩
  · intro t ht
    obtain ⟨sch, -, -, hst, rfl⟩ := (hmem t).mp ht
    constructor
    · simp [toTimeSlot, hst]
    · simp [toTimeSlot, hst]
  · intro hnone
    rcases hfetch : fetch_availability store professionalId with _ | ⟨t, rest⟩
    · rfl
    · exfalso
      have ht : t ∈ fetch_availability store professionalId := by
        rw [hfetch]; exact List.mem_cons_self t rest
      obtain ⟨sch, hsch, hp, hst, -⟩ := (hmem t).mp ht
      exact hnone sch hsch ⟨hp, hst⟩

/-- Witness for C5 as amended at a concrete store: the `[10, 20)`
`"AVAILABLE"` slot is returned for professional `"p"`. -/
theorem fetch_availability_spec_witness :
    (⟨10, 20, "AVAILABLE"⟩ : TimeSlot) ∈ fetch_availability c5Store "p" :=
  ((fetch_availability_spec c5Store "p").1 ⟨10, 20, "AVAILABLE"⟩).mpr
    ⟨⟨"s2", "p", 10, 20, "AVAILABLE"⟩, by decide, rfl, rfl, rfl⟩

/-- Marking an `"Available"` slot Booked does not change the set of rows
passing the `"AVAILABLE"` filter of `fetch_availability`, provided slot
ids are unique in the table (as Prisma ids are). -/
lemma filter_avail_after_mark (q : String) (slot : Schedule)
    (l : List Schedule) (hnd : (l.map Schedule.id).Nodup) (hmem : slot ∈ l)
    (hstat : slot.status = "Available") :
    ((l.map fun sch =>
        if sch.id == slot.id then { sch with status := "Booked" } else sch).filter
      fun sch => sch.professionalId == q && sch.status == "AVAILABLE") =
    l.filter fun sch => sch.professionalId == q && sch.status == "AVAILABLE" := by
  have hinj := List.inj_on_of_nodup_map hnd
  rw [List.filter_map]
  have hfc : ∀ sch ∈ l,
      ((fun sch : Schedule => sch.professionalId == q && sch.status == "AVAILABLE") ∘
        fun sch : Schedule =>
          if sch.id == slot.id then { sch with status := "Booked" } else sch) sch =
      (sch.professionalId == q && sch.status == "AVAILABLE") := by
    intro sch hsch
    by_cases hid : sch.id = slot.id
    · have heq : sch = slot := hinj hsch hmem hid
      subst heq
      simp [Function.comp, hstat]
    · simp [Function.comp, hid]
  rw [List.filter_congr hfc]
  have hid' : ∀ sch ∈ l.filter
      (fun sch : Schedule => sch.professionalId == q && sch.status == "AVAILABLE"),
      (fun sch : Schedule =>
        if sch.id == slot.id then { sch with status := "Booked" } else sch) sch =
      id sch := by
    intro sch hsch
    obtain ⟨hmem', hpred⟩ := List.mem_filter.mp hsch
    by_cases hid : sch.id = slot.id
    · have heq : sch = slot := hinj hmem' hmem hid
      subst heq
      rw [hstat] at hpred
      simp at hpred
    · simp [hid]
  rw [List.map_congr_left hid', List.map_id]

/-- C9: `fetch_availability` filters on the string `"AVAILABLE"` while
`book_appointment` matches and books slots whose status is the string
`"Available"` — disjoint sets of rows.  Consequently a successful booking
(which flips one `"Available"` slot to `"Booked"` and appends an
appointment row) leaves the availability listing of every professional
unchanged, and no slot the booking engine could match ever appears in a
listing (everything listed has status `"AVAILABLE"`, never `"Available"`).
Slot ids are assumed unique in the table, as Prisma ids are. -/
theorem booking_preserves_fetch_availability
    (store : Store) (faults : FaultSpec) (p c q : String)
    (st et : TimeStr) (d : Option String)
    (hids : (store.schedules.map Schedule.id).Nodup)
    (hsucc : (book_appointment store faults p c st et d).1.status = "Success") :
    fetch_availability (book_appointment store faults p c st et d).2 q =
      fetch_availability store q ∧
    ∀ t ∈ fetch_availability store q, t.status ≠ "Available" := by
  constructor
  · rcases hst : st.parsed with _ | s
    · exfalso
      unfold book_appointment at hsucc
      simp only [hst, exceptionResponse] at hsucc
      exact absurd hsucc (by decide)
    rcases het : et.parsed with _ | e
    · exfalso
      unfold book_appointment at hsucc
      simp only [hst, het, exceptionResponse] at hsucc
      exact absurd hsucc (by decide)
    rcases hff : faults.findFault with _ | m
    swap
    · exfalso
      unfold book_appointment at hsucc
      simp only [hst, het, hff, exceptionResponse] at hsucc
      exact absurd hsucc (by decide)
    rcases hfind : find_first store p s e with _ | slot
    · exfalso
      unfold book_appointment at hsucc
      simp only [hst, het, hff, hfind] at hsucc
      exact absurd hsucc (by decide)
    rcases hcf : faults.createFault with _ | m
    swap
    · exfalso
      unfold book_appointment at hsucc
      simp only [hst, het, hff, hfind, hcf, exceptionResponse] at hsucc
      exact absurd hsucc (by decide)
    rcases huf : faults.updateFault with _ | m
    swap
    · exfalso
      unfold book_appointment at hsucc
      simp only [hst, het, hff, hfind, hcf, huf, exceptionResponse] at hsucc
      exact absurd hsucc (by decide)
    have hmem : slot ∈ store.schedules := List.mem_of_find?_eq_some hfind
    have hpred := List.find?_some hfind
    have hstat : slot.status = "Available" := by
      unfold schedMatches at hpred
      simp only [Bool.and_eq_true, beq_iff_eq, decide_eq_true_eq] at hpred
      exact hpred.1.1.2
    unfold book_appointment
    simp only [hst, het, hff, hfind, hcf, huf]
    unfold fetch_availability markStatus
    simp only
    rw [filter_avail_after_mark q slot store.schedules hids hmem hstat]
  · intro t ht
    obtain ⟨sch, -, -, hstat, rfl⟩ := (mem_fetch_availability store q t).mp ht
    simp [toTimeSlot, hstat]

/-- A store holding one bookable `"Available"` slot and one listable
`"AVAILABLE"` slot of professional `"p"`, with distinct ids. -/
def c9Store : Store :=
  ⟨[⟨"s1", "p", 0, 100, "Available"⟩, ⟨"s2", "p", 0, 50, "AVAILABLE"⟩], []⟩

/-- Witness for C9 at a concrete store: the booking of `[10, 20)` succeeds
against `"s1"` yet the availability listing of `"p"` is unchanged. -/
theorem booking_preserves_fetch_availability_witness :
    fetch_availability (book_appointment c9Store noFaults "p" "clientA"
        ⟨"t10", some 10⟩ ⟨"t20", some 20⟩ none).2 "p" =
      fetch_availability c9Store "p" :=
  (booking_preserves_fetch_availability c9Store noFaults "p" "clientA" "p"
    ⟨"t10", some 10⟩ ⟨"t20", some 20⟩ none (by decide) (by decide)).1

/-- C10: `book_appointment` is total — it returns a `BookingResponse` on
every input by construction — and whenever its `try` block raises
(unparseable timestamp, or a failing Prisma call on the executed path,
as characterised by `raisedMsg`), the `except` branch converts the
exception into a response with status `"Failure"`, empty `bookingId`,
and the exception text as `errorMessage` (with no `details`, as in the
source's `except` branch). -/
theorem book_appointment_exception_to_failure (store : Store)
    (faults : FaultSpec) (professionalId clientId : String) (st et : TimeStr)
    (details : Option String) (msg : String)
    (h : raisedMsg store faults professionalId st et = some msg) :
    (book_appointment store faults professionalId clientId st et details).1 =
      { bookingId := ""
        professionalId := professionalId
        clientId := clientId
        startTime := st.raw
        endTime := et.raw
        status := "Failure"
        details := none
        errorMessage := some msg } := by
  unfold raisedMsg at h
  unfold book_appointment
  rcases hst : st.parsed with _ | s
  · simp only [hst, Option.some.injEq] at h
    subst h
    simp [exceptionResponse]
  rcases het : et.parsed with _ | e
  · simp only [hst, het, Option.some.injEq] at h
    subst h
    simp [exceptionResponse]
  rcases hff : faults.findFault with _ | m
  swap
  · simp only [hst, het, hff, Option.some.injEq] at h
    subst h
    simp [exceptionResponse]
  rcases hfind : find_first store professionalId s e with _ | slot
  · simp only [hst, het, hff, hfind] at h
    exact Option.noConfusion h
  rcases hcf : faults.createFault with _ | m
  swap
  · simp only [hst, het, hff, hfind, hcf, Option.some.injEq] at h
    subst h
    simp [exceptionResponse, hfind]
  simp only [hst, het, hff, hfind, hcf] at h
  simp only [hst, het, hff, hfind, hcf, h]
  simp [exceptionResponse]

/-- Witness for C10 at a concrete input: an unparseable start timestamp
is converted into the failure response carrying the `ValueError` text. -/
theorem book_appointment_exception_to_failure_witness :
    (book_appointment oneSlotStore noFaults "p" "c" ⟨"not-a-date", none⟩
        ⟨"t20", some 20⟩ none).1 =
      { bookingId := ""
        professionalId := "p"
        clientId := "c"
        startTime := "not-a-date"
        endTime := "t20"
        status := "Failure"
        details := none
        errorMessage := some (isoErrMsg "not-a-date") } :=
  book_appointment_exception_to_failure oneSlotStore noFaults "p" "c"
    ⟨"not-a-date", none⟩ ⟨"t20", some 20⟩ none (isoErrMsg "not-a-date") rfl

/-- Model validation: a single booking task, running its three atomic
steps with no interleaved competitor, finishes with exactly the response
and post-store of the sequential fault-free `book_appointment` — the
interleaved model embeds the same source code. -/
theorem bookStep_sequential_run (store : Store) (a : BookArgs) :
    (let r1 := bookStep store a .toFind
     let r2 := bookStep r1.2 a r1.1
     let r3 := bookStep r2.2 a r2.1
     (r3.1, r3.2)) =
    (let br := book_appointment store noFaults a.professionalId a.clientId
        a.startTime a.endTime a.details
     (BookPC.finished br.1, br.2)) := by
  rcases hst : a.startTime.parsed with _ | s
  · simp [bookStep, book_appointment, noFaults, hst]
  rcases het : a.endTime.parsed with _ | e
  · simp [bookStep, book_appointment, noFaults, hst, het]
  rcases hfind : find_first store a.professionalId s e with _ | slot
  · simp [bookStep, book_appointment, noFaults, hst, het, hfind]
  · simp [bookStep, book_appointment, noFaults, hst, het, hfind]

end AvailabilityChecker
